import Mathlib

/-!
Verification development for the A2P reconciliation-and-billing core of the
CoveCRM repository.  The authoritative code fragments live in the patch
scripts under src/scripts (the JavaScript/TypeScript text they insert into
pages/api/a2p/sync.ts, pages/api/a2p/status-callback.ts and
pages/api/cron/check-a2p-status.ts).  Optional/possibly-undefined strings
are embedded as plain String with the empty string standing for an absent
value; this is faithful because every use in the fragments is either
JavaScript truthiness (where both undefined and the empty string are falsy)
or an equality comparison guarded by such a truthiness test.
-/

namespace CoveCRM

/-- ASCII lower-casing of one character, the executable core of
String.toLowerCase as used on status strings. -/
def charLower (c : Char) : Char :=
  if c.toNat ≥ 65 ∧ c.toNat ≤ 90 then Char.ofNat (c.toNat + 32) else c

/-- Lower-casing of a string, character by character. -/
def lowerStr (s : String) : String := String.mk (s.data.map charLower)

/-- Dropping the first n characters of a string (JavaScript slice from n,
on the ASCII header text used here). -/
def strDropChars (s : String) (n : Nat) : String := String.mk (s.data.drop n)

/-- Whether p is an initial segment of s (JavaScript String.startsWith). -/
def strStartsWith (s p : String) : Bool := s.data.take p.data.length = p.data

/-- JavaScript a-or-else-b on strings: the value of the expression
a two-pipe b, where an absent value is embedded as the empty string. -/
def orElse (a b : String) : String := if a ≠ "" then a else b

theorem orElse_empty_right (a : String) : orElse a "" = a := by
  unfold orElse; split <;> simp_all

theorem orElse_empty_left (b : String) : orElse "" b = b := by
  unfold orElse; simp

/-- Modelled from the spec: the CAMPAIGN_APPROVED set of sync.ts is not among
the patched sources; the spec says approved-class statuses rank highest and
the domain values include at least "approved", "pending", "failed"/unknown. -/
def CAMPAIGN_APPROVED : List String := ["approved"]

/-- Modelled from the spec: scoreCampaignStatus of sync.ts is not among the
patched sources; the spec's ScoringFunction ranks a status string with
approved-class highest, pending-class middle, everything else lowest. -/
def scoreCampaignStatus (s : String) : Nat :=
  let t := lowerStr s
  if CAMPAIGN_APPROVED.contains t then 2
  else if t = "pending" then 1
  else 0

/-- Modelled from the spec: the brandIsApproved/campaignIsApproved checks of
status-callback.ts are not among the patched sources; the spec defines
ready as isApproved(brand) and isApproved(campaign) over status strings. -/
def isApproved (s : String) : Bool := CAMPAIGN_APPROVED.contains (lowerStr s)

/-- A registry-fetched candidate record, as used by the canonical-switch
block of sync.ts (fields campaignSid, messagingServiceSid, brandSid,
campaignStatus); an absent field is the empty string. -/
structure Candidate where
  campaignSid : String
  messagingServiceSid : String
  brandSid : String
  campaignStatus : String
deriving DecidableEq, Repr

/-- The mutable local variables of the sync handler around the
canonical-switch block: campaignSid, messagingServiceSid, brandSid and
campStatus. -/
structure SyncVars where
  campaignSid : String
  messagingServiceSid : String
  brandSid : String
  campStatus : String
deriving DecidableEq, Repr

/-- The persisted A2P profile document fields touched by the workflows. -/
structure A2PDoc where
  campaignSid : String
  messagingServiceSid : String
  brandSid : String
  usa2pSid : String
  messagingReady : Bool
  lastError : Option String
  lastSyncedAt : Option Nat
  approvalNotifiedAt : Option Nat
deriving DecidableEq, Repr

/-- Field access through an optional candidate, mirroring the JavaScript
optional-chaining read canonical?.field (undefined embeds as ""). -/
def optField (c : Option Candidate) (f : Candidate → String) : String :=
  match c with
  | some c => f c
  | none => ""

/-- The shouldSwitch expression of the canonical-switch replacement in
patch_a2p_sync_twilio_truth_always_scan_v2.py: rule 1 fires when a local
identifier is missing, rule 2 when the scanned candidate scores strictly
higher, rule 3 when the candidate has a different campaign sid and the
current effective status is not approved.  currentStatus is the status of
the freshly fetched current record (empty when no record was fetched). -/
def shouldSwitch (campaignSid messagingServiceSid currentStatus campStatus : String)
    (canonical : Option Candidate) : Bool :=
  let eff := orElse currentStatus (orElse campStatus "")
  let scoreCurrent := scoreCampaignStatus eff
  let scoreCanonical := scoreCampaignStatus (orElse (optField canonical Candidate.campaignStatus) "")
  let currentApproved := lowerStr eff ≠ "" && CAMPAIGN_APPROVED.contains (lowerStr eff)
  let cid := optField canonical Candidate.campaignSid
  let msid := optField canonical Candidate.messagingServiceSid
  (campaignSid = "" || messagingServiceSid = "")
    || (cid ≠ "" && msid ≠ "" && decide (scoreCanonical > scoreCurrent))
    || (cid ≠ "" && msid ≠ "" && cid ≠ campaignSid && !currentApproved)

/-- Result of one run of the canonical-switch block: the mutated local
variables, the persisted document after the best-effort updateOne, and
whether the switch branch was taken. -/
structure SwitchResult where
  vars : SyncVars
  doc : A2PDoc
  switched : Bool
deriving DecidableEq, Repr

/-- The canonical-switch block of sync.ts as replaced by
patch_a2p_sync_twilio_truth_always_scan_v2.py.  fetchRes is the outcome of
tryFetchCampaignTenant (error means the call threw; some s means a record
with effective status s, none means no record) and scanRes the outcome of
scanTwilioForCanonicalCampaignTenant.  The try/catch swallowing registry
errors is embedded by returning the state reached before the throwing call
with no switch; the updateOne applies the literal set/unset fields of the
replacement and leaves every other document field untouched. -/
def canonicalSwitch (v : SyncVars) (doc : A2PDoc)
    (fetchRes : Except Unit (Option String))
    (scanRes : Except Unit (Option Candidate)) (now : Nat) : SwitchResult :=
  match fetchRes with
  | .error _ => ⟨v, doc, false⟩
  | .ok fetched =>
    let currentStatus : String := fetched.getD ""
    let v1 : SyncVars :=
      if fetched.isSome then { v with campStatus := orElse currentStatus v.campStatus } else v
    match scanRes with
    | .error _ => ⟨v1, doc, false⟩
    | .ok canonical =>
      let sw := shouldSwitch v1.campaignSid v1.messagingServiceSid currentStatus
        v1.campStatus canonical
      let cid := optField canonical Candidate.campaignSid
      let msid := optField canonical Candidate.messagingServiceSid
      let bsid := optField canonical Candidate.brandSid
      let cstat := optField canonical Candidate.campaignStatus
      if sw && msid ≠ "" && cid ≠ "" then
        let newBrand := if bsid ≠ "" && strStartsWith bsid "BN" then bsid else v1.brandSid
        let v2 : SyncVars :=
          { v1 with messagingServiceSid := msid, campaignSid := cid, brandSid := newBrand }
        let doc2 : A2PDoc :=
          { doc with
            messagingServiceSid := msid
            campaignSid := cid
            usa2pSid := cid
            brandSid := if newBrand ≠ "" then newBrand else doc.brandSid
            lastSyncedAt := some now
            lastError := none }
        let v3 : SyncVars := if cstat ≠ "" then { v2 with campStatus := cstat } else v2
        ⟨v3, doc2, true⟩
      else ⟨v1, doc, false⟩

/-- Modelled from the spec: the body of chargeA2PApprovalIfNeeded (in
lib/billing/trackUsage) is not among the patched sources; it wraps the
payment gateway's idempotent charge operation and may throw on gateway
failure.  The failure mode is a parameter. -/
def chargeA2PApprovalIfNeeded (gatewayFails : Bool) : Except String Unit :=
  if gatewayFails then Except.error "billing gateway failure" else Except.ok ()

/-- Observable outcome of one ready-transition step of the sync workflow:
the persisted document, whether chargeA2PApprovalIfNeeded was called,
whether a warning was logged for a swallowed billing error, and the
workflow's overall success result. -/
structure StepOutcome where
  doc : A2PDoc
  billingCalled : Bool
  loggedWarning : Bool
  success : Bool
deriving DecidableEq, Repr

/-- Modelled from the spec: the tail of the sync workflow around the
approvalNotifiedAt gate (sync.ts itself is not among the patched sources;
the spec says messagingReady is recomputed as brand-approved and
campaign-approved on every pass, and first-time ready sets the gate).  The
placement of the billing call inside the gate check on the read document,
and its try/catch that logs a warning and continues, are from
patch_insert_a2p_charge_inside_approvalNotified_gate.py. -/
def syncReadyStep (doc : A2PDoc) (brandStatus campaignStatus : String)
    (gatewayFails : Bool) (now : Nat) : StepOutcome :=
  let ready := isApproved brandStatus && isApproved campaignStatus
  if ready then
    if doc.approvalNotifiedAt.isNone then
      let warned :=
        match chargeA2PApprovalIfNeeded gatewayFails with
        | .ok _ => false
        | .error _ => true
      ⟨{ doc with messagingReady := true, approvalNotifiedAt := some now }, true, warned, true⟩
    else ⟨{ doc with messagingReady := true }, false, false, true⟩
  else ⟨{ doc with messagingReady := false }, false, false, true⟩

/-- The user document fields read and written by the status-callback
workflow: the previous ready flag pair consulted by the wasReady guard. -/
structure UserDoc where
  registrationStatus : String
  messagingReady : Bool
deriving DecidableEq, Repr

/-- Observable outcome of one status-callback pass. -/
structure CallbackOutcome where
  user : UserDoc
  billingCalled : Bool
  loggedWarning : Bool
  success : Bool
deriving DecidableEq, Repr

/-- The status-callback ready-transition logic: the messagingReady
computation (the anchor line of patch_a2p_charge_hook_status_callback.py),
the wasReady guard and guarded charge with its warning-only catch from
patch_guard_a2p_charge_status_callback.py.  The persistence of the computed
ready state after the charge block is modelled from the spec (the rest of
status-callback.ts is not among the patched sources). -/
def statusCallbackStep (user : UserDoc) (brandStatus campaignStatus : String)
    (gatewayFails : Bool) : CallbackOutcome :=
  let brandIsApproved := isApproved brandStatus
  let campaignIsApproved := isApproved campaignStatus
  let messagingReady := brandIsApproved && campaignIsApproved
  let wasReady := user.registrationStatus = "ready" || user.messagingReady
  let callBilling := messagingReady && !wasReady
  let warned :=
    if callBilling then
      match chargeA2PApprovalIfNeeded gatewayFails with
      | .ok _ => false
      | .error _ => true
    else false
  ⟨{ user with
      messagingReady := messagingReady
      registrationStatus := if messagingReady then "ready" else user.registrationStatus },
    callBilling, warned, true⟩

/-- Input of one sequential reconciliation pass: the statuses it observes,
whether the billing gateway fails during it, and its timestamp. -/
structure PassInput where
  brandStatus : String
  campaignStatus : String
  gatewayFails : Bool
  now : Nat
deriving DecidableEq, Repr

/-- Sequential execution of sync passes over one profile document,
returning the final document and the number of billing calls made. -/
def runPasses (doc : A2PDoc) : List PassInput → A2PDoc × Nat
  | [] => (doc, 0)
  | p :: ps =>
    let r := syncReadyStep doc p.brandStatus p.campaignStatus p.gatewayFails p.now
    let rest := runPasses r.doc ps
    (rest.1, (if r.billingCalled then 1 else 0) + rest.2)

/-- Whether a pass observes a fully approved status pair. -/
def passReady (p : PassInput) : Bool :=
  isApproved p.brandStatus && isApproved p.campaignStatus

/-! Concurrency model of two orchestrator invocations racing on one
profile, for the approvalNotifiedAt gate. -/

/-- Program counter of one invocation: read the document, run the gate
block (charge when the snapshot shows the gate unset), attempt the gate
write, done. -/
inductive PC
  | read
  | charge
  | gateWrite
  | done
deriving DecidableEq, Repr

/-- Per-invocation state: program counter, the snapshot of
approvalNotifiedAt taken when the document was read (true means set), how
many times this invocation called billing, and whether its gate write
succeeded. -/
structure ThreadState where
  pc : PC
  snap : Bool
  charges : Nat
  wrote : Bool
deriving DecidableEq, Repr

/-- Shared state of the race: the durable gate plus both invocations. -/
structure RaceState where
  gate : Bool
  ta : ThreadState
  tb : ThreadState
deriving DecidableEq, Repr

def initThread : ThreadState := ⟨PC.read, false, 0, false⟩

def initRace : RaceState := ⟨false, initThread, initThread⟩

/-- Modelled from the spec: one scheduling step of a single invocation
(section 5 of the spec describes the race of a webhook delivery with a
polling tick).  The billing call sits inside the gate check on the read
snapshot, before any gate write, exactly as inserted by
patch_insert_a2p_charge_inside_approvalNotified_gate.py; the gate write is
given the conditional check-and-set semantics the spec asks for (it
succeeds only when the durable field is currently unset).  ready is the
readiness both invocations observe. -/
def threadStep (ready : Bool) (gate : Bool) (t : ThreadState) : Bool × ThreadState :=
  match t.pc with
  | PC.read => (gate, { t with snap := gate, pc := PC.charge })
  | PC.charge =>
    if ready && !t.snap then (gate, { t with charges := t.charges + 1, pc := PC.gateWrite })
    else (gate, { t with pc := PC.gateWrite })
  | PC.gateWrite =>
    if ready && !t.snap then
      if !gate then (true, { t with wrote := true, pc := PC.done })
      else (gate, { t with pc := PC.done })
    else (gate, { t with pc := PC.done })
  | PC.done => (gate, t)

/-- Thread identifiers for the two racing invocations. -/
inductive Tid
  | A
  | B
deriving DecidableEq, Repr

/-- One interleaving step: the scheduled invocation takes its next step. -/
def raceStep (ready : Bool) (s : RaceState) : Tid → RaceState
  | Tid.A =>
    let r := threadStep ready s.gate s.ta
    { s with gate := r.1, ta := r.2 }
  | Tid.B =>
    let r := threadStep ready s.gate s.tb
    { s with gate := r.1, tb := r.2 }

/-- Run a schedule (an arbitrary interleaving of the two invocations). -/
def runRace (ready : Bool) (s : RaceState) : List Tid → RaceState
  | [] => s
  | t :: ts => runRace ready (raceStep ready s t) ts

/-! Polling-trigger authorization. -/

/-- The credential-bearing parts of a request to the polling trigger; an
absent query parameter or header is the empty string. -/
structure CronRequest where
  queryToken : String
  xCronToken : String
  xCronKey : String
  authorization : String
deriving DecidableEq, Repr

/-- Bearer extraction from the authorization header, as inserted by
patch_accept_vercel_bearer_cron_secret.py: the text after "Bearer " when
the header starts with it, otherwise empty. -/
def bearerOf (authHeader : String) : String :=
  if strStartsWith authHeader "Bearer " then strDropChars authHeader 7 else ""

/-- The token selection chain of pages/api/cron/check-a2p-status.ts after
patch_accept_vercel_bearer_cron_secret.py: query token, else x-cron-token
header, else x-cron-key header, else bearer — a JavaScript two-pipe chain
taking the first non-empty value. -/
def checkA2PToken (req : CronRequest) : String :=
  let bearer := bearerOf req.authorization
  orElse req.queryToken (orElse req.xCronToken (orElse req.xCronKey bearer))

/-- Modelled from the spec: the comparison that accepts or rejects the
polling trigger in check-a2p-status.ts is not among the patched sources
(only the token chain is); the spec says the request is rejected before
any reconciliation work when the presented value does not equal the
configured secret.  The single selected token is compared to the secret. -/
def checkA2PAuthorized (req : CronRequest) (secret : String) : Bool :=
  checkA2PToken req = secret

/-- The authorization check of pages/api/a2p/sync-status.ts after
patch_accept_vercel_bearer_cron_secret.py: the request is rejected when a
key is configured and none of query token, x-cron-key header and bearer
equals it (the query-token extraction itself is not among the patched
sources and is modelled from the spec's query-parameter channel). -/
def syncStatusAuthorized (queryToken xCronKey authorization cronKey : String) : Bool :=
  let headerKey := xCronKey
  let bearer := bearerOf authorization
  !(cronKey ≠ "" && queryToken ≠ cronKey && headerKey ≠ cronKey && bearer ≠ cronKey)

/-! Helper lemmas shared by the claim theorems. -/

theorem currentApproved_eq_isApproved (s : String) :
    (lowerStr s ≠ "" && CAMPAIGN_APPROVED.contains (lowerStr s)) = isApproved s := by
  by_cases h : lowerStr s = "approved" <;>
    simp [isApproved, CAMPAIGN_APPROVED, h]

theorem isApproved_eq_beq (s : String) : isApproved s = (lowerStr s == "approved") := by
  by_cases h : lowerStr s = "approved" <;> simp [isApproved, CAMPAIGN_APPROVED, h]

theorem strStartsWith_ne_empty (s : String) (h : strStartsWith s "BN" = true) : s ≠ "" := by
  intro he
  subst he
  simp [strStartsWith] at h

theorem lowerStr_eq_of_isApproved (s : String) (h : isApproved s = true) :
    lowerStr s = "approved" := by
  simpa [isApproved, CAMPAIGN_APPROVED] using h

/-- C8: the persisted messagingReady flag always equals
isApproved(brandStatus) and isApproved(campaignStatus), on both the
status-callback pass and the sync ready step; it is never true when either
status is absent or unknown (isApproved of the empty string is false, and
isApproved holds exactly when the lower-cased status is the approved
value), and neither pass writes it except as that computation. -/
theorem messagingReady_is_recomputed
    (user : UserDoc) (doc : A2PDoc) (b c : String) (f : Bool) (now : Nat) :
    (statusCallbackStep user b c f).user.messagingReady = (isApproved b && isApproved c)
    ∧ (syncReadyStep doc b c f now).doc.messagingReady = (isApproved b && isApproved c)
    ∧ isApproved "" = false
    ∧ (∀ s, isApproved s = (lowerStr s == "approved")) := by
  refine ⟨?_, ?_, by decide, fun s => isApproved_eq_beq s⟩
  · simp [statusCallbackStep]
  · cases hb : isApproved b <;> cases hc : isApproved c <;>
      cases hg : doc.approvalNotifiedAt <;> simp [syncReadyStep, hb, hc, hg]

/-- C1: on the sync workflow's ready step, chargeA2PApprovalIfNeeded is
called exactly when the profile is ready and the durable gate
approvalNotifiedAt is unset; on the status-callback workflow, exactly when
the profile is ready and the previous ready flag (registrationStatus
"ready" or a cached messagingReady) is false.  In particular no billing
call is made on any pass where the gate is already set. -/
theorem billing_called_iff_first_time
    (doc : A2PDoc) (user : UserDoc) (b c : String) (f : Bool) (now : Nat) :
    (syncReadyStep doc b c f now).billingCalled
      = ((isApproved b && isApproved c) && doc.approvalNotifiedAt.isNone)
    ∧ (statusCallbackStep user b c f).billingCalled
      = ((isApproved b && isApproved c)
          && !(decide (user.registrationStatus = "ready") || user.messagingReady)) := by
  constructor
  · cases hb : isApproved b <;> cases hc : isApproved c <;>
      cases hg : doc.approvalNotifiedAt <;> simp [syncReadyStep, hb, hc, hg]
  · simp [statusCallbackStep]

/-- C4: a billing-gateway failure is caught inside both workflows and only
logged: the persisted document and user fields, the decision to bill, and
the overall success result are identical whether the charge throws or
succeeds, success is always reported, and a warning is logged exactly when
a billing call was made and the gateway failed.  Both passes are total
functions, so no billing error propagates to the caller. -/
theorem billing_failure_is_nonfatal
    (doc : A2PDoc) (user : UserDoc) (b c : String) (now : Nat) :
    (syncReadyStep doc b c true now).doc = (syncReadyStep doc b c false now).doc
    ∧ (syncReadyStep doc b c true now).billingCalled
        = (syncReadyStep doc b c false now).billingCalled
    ∧ (syncReadyStep doc b c true now).success = true
    ∧ (syncReadyStep doc b c false now).success = true
    ∧ (syncReadyStep doc b c true now).loggedWarning
        = (syncReadyStep doc b c true now).billingCalled
    ∧ (syncReadyStep doc b c false now).loggedWarning = false
    ∧ (statusCallbackStep user b c true).user = (statusCallbackStep user b c false).user
    ∧ (statusCallbackStep user b c true).billingCalled
        = (statusCallbackStep user b c false).billingCalled
    ∧ (statusCallbackStep user b c true).success = true
    ∧ (statusCallbackStep user b c false).success = true
    ∧ (statusCallbackStep user b c true).loggedWarning
        = (statusCallbackStep user b c true).billingCalled := by
  cases hb : isApproved b <;> cases hc : isApproved c <;>
    cases hg : doc.approvalNotifiedAt <;>
    cases hw : user.messagingReady <;>
    by_cases hr : user.registrationStatus = "ready" <;>
    simp [syncReadyStep, statusCallbackStep, chargeA2PApprovalIfNeeded, hb, hc, hg, hw, hr]

theorem canonicalSwitch_preserves_gate (v : SyncVars) (doc : A2PDoc)
    (fr : Except Unit (Option String)) (sr : Except Unit (Option Candidate)) (now : Nat) :
    (canonicalSwitch v doc fr sr now).doc.approvalNotifiedAt = doc.approvalNotifiedAt := by
  unfold canonicalSwitch
  cases fr with
  | error e => rfl
  | ok fetched =>
    cases sr with
    | error e => rfl
    | ok canonical => dsimp only; split_ifs <;> rfl

theorem syncReadyStep_gate_monotone (doc : A2PDoc) (b c : String) (f : Bool) (now t : Nat)
    (h : doc.approvalNotifiedAt = some t) :
    (syncReadyStep doc b c f now).doc.approvalNotifiedAt = some t := by
  cases hb : isApproved b <;> cases hc : isApproved c <;>
    simp [syncReadyStep, hb, hc, h]

theorem runPasses_count_of_gate_set (doc : A2PDoc) (ps : List PassInput) (t : Nat)
    (h : doc.approvalNotifiedAt = some t) :
    (runPasses doc ps).2 = 0 ∧ (runPasses doc ps).1.approvalNotifiedAt = some t := by
  induction ps generalizing doc with
  | nil => simpa [runPasses] using h
  | cons p ps ih =>
    have hb := billing_called_iff_first_time doc ⟨"", false⟩ p.brandStatus p.campaignStatus
      p.gatewayFails p.now
    have hcall : (syncReadyStep doc p.brandStatus p.campaignStatus p.gatewayFails p.now).billingCalled
        = false := by
      rw [hb.1, h]
      simp
    have hgate := syncReadyStep_gate_monotone doc p.brandStatus p.campaignStatus
      p.gatewayFails p.now t h
    have ihp := ih _ hgate
    simp [runPasses, hcall, ihp.1, ihp.2]

theorem runPasses_count_of_gate_unset (doc : A2PDoc) (ps : List PassInput)
    (h : doc.approvalNotifiedAt = none) :
    (runPasses doc ps).2 = (if ps.any passReady then 1 else 0) := by
  induction ps generalizing doc with
  | nil => simp [runPasses]
  | cons p ps ih =>
    by_cases hr : passReady p = true
    · have hcall : (syncReadyStep doc p.brandStatus p.campaignStatus p.gatewayFails p.now).billingCalled
          = true := by
        rw [(billing_called_iff_first_time doc ⟨"", false⟩ p.brandStatus p.campaignStatus
          p.gatewayFails p.now).1, h]
        simpa [passReady] using hr
      have hgate : (syncReadyStep doc p.brandStatus p.campaignStatus p.gatewayFails
          p.now).doc.approvalNotifiedAt = some p.now := by
        have : (isApproved p.brandStatus && isApproved p.campaignStatus) = true := by
          simpa [passReady] using hr
        simp [syncReadyStep, h, this]
      have hrest := runPasses_count_of_gate_set _ ps p.now hgate
      simp [runPasses, hcall, hrest.1, List.any_cons, hr]
    · have hready : (isApproved p.brandStatus && isApproved p.campaignStatus) = false := by
        simpa [passReady] using hr
      have hcall : (syncReadyStep doc p.brandStatus p.campaignStatus p.gatewayFails p.now).billingCalled
          = false := by
        rw [(billing_called_iff_first_time doc ⟨"", false⟩ p.brandStatus p.campaignStatus
          p.gatewayFails p.now).1, hready]
        simp
      have hgate : (syncReadyStep doc p.brandStatus p.campaignStatus p.gatewayFails
          p.now).doc.approvalNotifiedAt = none := by
        simp [syncReadyStep, h, hready]
      simp [runPasses, hcall, ih _ hgate, List.any_cons, hr]

/-- C2: no reconciliation pass ever clears approvalNotifiedAt once it is
set — neither the canonical-switch updateOne (whose set/unset fields do not
mention the gate) nor the ready step — and under sequential execution from
an unset gate the billing call is attempted exactly once when some pass
observes a ready profile (and never again afterwards), zero times when no
pass does. -/
theorem gate_never_cleared_and_bills_once
    (v : SyncVars) (doc doc2 : A2PDoc) (fr : Except Unit (Option String))
    (sr : Except Unit (Option Candidate)) (now t : Nat) (ps : List PassInput)
    (hset : doc.approvalNotifiedAt = some t) (hunset : doc2.approvalNotifiedAt = none) :
    (canonicalSwitch v doc fr sr now).doc.approvalNotifiedAt = some t
    ∧ (∀ b c f n, (syncReadyStep doc b c f n).doc.approvalNotifiedAt = some t)
    ∧ (runPasses doc ps).2 = 0
    ∧ (runPasses doc2 ps).2 = (if ps.any passReady then 1 else 0) := by
  refine ⟨?_, fun b c f n => syncReadyStep_gate_monotone doc b c f n t hset, ?_, ?_⟩
  · rw [canonicalSwitch_preserves_gate, hset]
  · exact (runPasses_count_of_gate_set doc ps t hset).1
  · exact runPasses_count_of_gate_unset doc2 ps hunset

/-- Witness for C2 at concrete inputs: a document with the gate set at time
3 keeps it through a switch pass and every ready step, bills zero times
over a three-pass run, while a document with the gate unset bills exactly
once over the same run (one non-ready pass, then two ready passes). -/
theorem gate_never_cleared_and_bills_once_witness :
    (A2PDoc.mk "CMa" "MGa" "BNa" "CMa" true none none (some 3)).approvalNotifiedAt = some 3
    ∧ (A2PDoc.mk "" "" "" "" false none none none).approvalNotifiedAt = none
    ∧ ((canonicalSwitch ⟨"CMa", "MGa", "BNa", "pending"⟩
          (A2PDoc.mk "CMa" "MGa" "BNa" "CMa" true none none (some 3))
          (Except.ok none) (Except.ok (some ⟨"CMb", "MGb", "BNb", "approved"⟩)) 9).doc.approvalNotifiedAt
        = some 3
      ∧ (∀ b c f n, (syncReadyStep (A2PDoc.mk "CMa" "MGa" "BNa" "CMa" true none none (some 3))
          b c f n).doc.approvalNotifiedAt = some 3)
      ∧ (runPasses (A2PDoc.mk "CMa" "MGa" "BNa" "CMa" true none none (some 3))
          [⟨"pending", "approved", false, 4⟩, ⟨"approved", "approved", false, 5⟩,
            ⟨"approved", "approved", true, 6⟩]).2 = 0
      ∧ (runPasses (A2PDoc.mk "" "" "" "" false none none none)
          [⟨"pending", "approved", false, 4⟩, ⟨"approved", "approved", false, 5⟩,
            ⟨"approved", "approved", true, 6⟩]).2
          = (if ([⟨"pending", "approved", false, 4⟩, ⟨"approved", "approved", false, 5⟩,
              (⟨"approved", "approved", true, 6⟩ : PassInput)].any passReady) then 1 else 0)) :=
  ⟨by decide, by decide,
    gate_never_cleared_and_bills_once ⟨"CMa", "MGa", "BNa", "pending"⟩
      (A2PDoc.mk "CMa" "MGa" "BNa" "CMa" true none none (some 3))
      (A2PDoc.mk "" "" "" "" false none none none)
      (Except.ok none) (Except.ok (some ⟨"CMb", "MGb", "BNb", "approved"⟩)) 9 3
      [⟨"pending", "approved", false, 4⟩, ⟨"approved", "approved", false, 5⟩,
        ⟨"approved", "approved", true, 6⟩]
      (by decide) (by decide)⟩

/-! The canonical selector on one scanned candidate. -/

/-- The canonical-switch block run with no fetched current record and one
scanned canonical candidate, the configuration the selector claims are
about. -/
def selectorPass (v : SyncVars) (doc : A2PDoc) (c : Candidate) (now : Nat) : SwitchResult :=
  canonicalSwitch v doc (Except.ok none) (Except.ok (some c)) now

theorem selectorPass_eq (v : SyncVars) (doc : A2PDoc) (c : Candidate) (now : Nat) :
    selectorPass v doc c now =
      (if shouldSwitch v.campaignSid v.messagingServiceSid "" v.campStatus (some c)
          && c.messagingServiceSid ≠ "" && c.campaignSid ≠ "" then
        (let newBrand := if c.brandSid ≠ "" && strStartsWith c.brandSid "BN" then c.brandSid
          else v.brandSid
        ⟨⟨c.campaignSid, c.messagingServiceSid, newBrand,
            if c.campaignStatus ≠ "" then c.campaignStatus else v.campStatus⟩,
          ⟨c.campaignSid, c.messagingServiceSid,
            (if newBrand ≠ "" then newBrand else doc.brandSid), c.campaignSid,
            doc.messagingReady, none, some now, doc.approvalNotifiedAt⟩, true⟩)
      else ⟨v, doc, false⟩) := by
  unfold selectorPass canonicalSwitch
  dsimp only [Option.getD_none, Option.isSome_none, Bool.false_eq_true, if_false, optField]
  split_ifs with h1 h2 <;> simp_all

theorem shouldSwitch_iff (v : SyncVars) (c : Candidate)
    (h1 : c.campaignSid ≠ "") (h2 : c.messagingServiceSid ≠ "") :
    shouldSwitch v.campaignSid v.messagingServiceSid "" v.campStatus (some c) = true ↔
      (v.campaignSid = "" ∨ v.messagingServiceSid = ""
        ∨ scoreCampaignStatus c.campaignStatus > scoreCampaignStatus v.campStatus
        ∨ (c.campaignSid ≠ v.campaignSid ∧ isApproved v.campStatus = false)) := by
  simp only [shouldSwitch, optField, orElse_empty_left, orElse_empty_right,
    currentApproved_eq_isApproved, Bool.or_eq_true, Bool.and_eq_true, decide_eq_true_eq,
    Bool.not_eq_true', ne_eq]
  tauto

/-- C5: with a stored local state and one scanned canonical candidate
(which, per the CandidateRecord model, carries both identifiers), the
selector switches exactly when a local identifier is missing, or the
candidate scores strictly higher than the current status, or the
candidate's campaign id differs from the stored one and the current status
is not approved; on a switch both identifiers become the candidate's, and
otherwise the stored identifiers and the persisted document are unchanged. -/
theorem selector_switch_iff_rules
    (v : SyncVars) (doc : A2PDoc) (c : Candidate) (now : Nat)
    (h1 : c.campaignSid ≠ "") (h2 : c.messagingServiceSid ≠ "") :
    ((selectorPass v doc c now).switched = true ↔
      (v.campaignSid = "" ∨ v.messagingServiceSid = ""
        ∨ scoreCampaignStatus c.campaignStatus > scoreCampaignStatus v.campStatus
        ∨ (c.campaignSid ≠ v.campaignSid ∧ isApproved v.campStatus = false)))
    ∧ ((selectorPass v doc c now).switched = true →
        (selectorPass v doc c now).vars.campaignSid = c.campaignSid
        ∧ (selectorPass v doc c now).vars.messagingServiceSid = c.messagingServiceSid
        ∧ (selectorPass v doc c now).doc.campaignSid = c.campaignSid
        ∧ (selectorPass v doc c now).doc.messagingServiceSid = c.messagingServiceSid)
    ∧ ((selectorPass v doc c now).switched = false →
        (selectorPass v doc c now).vars = v ∧ (selectorPass v doc c now).doc = doc) := by
  rw [selectorPass_eq]
  by_cases hsw : shouldSwitch v.campaignSid v.messagingServiceSid "" v.campStatus (some c) = true
  · rw [(shouldSwitch_iff v c h1 h2)] at hsw
    simp [shouldSwitch_iff v c h1 h2, h1, h2, hsw]
  · have hsw' : shouldSwitch v.campaignSid v.messagingServiceSid "" v.campStatus (some c)
        = false := by simpa using hsw
    rw [shouldSwitch_iff v c h1 h2] at hsw
    simp [hsw', hsw]

/-- Witness for C5: with empty local identifiers and an approved scanned
candidate, the selector switches (rule 1), adopting both identifiers. -/
theorem selector_switch_iff_rules_witness :
    ("CMa" : String) ≠ "" ∧ ("MGa" : String) ≠ ""
    ∧ (((selectorPass ⟨"", "", "", ""⟩ (A2PDoc.mk "" "" "" "" false (some "e") none none)
          ⟨"CMa", "MGa", "BNa", "approved"⟩ 5).switched = true ↔
        (("" : String) = "" ∨ ("" : String) = ""
          ∨ scoreCampaignStatus "approved" > scoreCampaignStatus ""
          ∨ (("CMa" : String) ≠ "" ∧ isApproved "" = false)))
      ∧ ((selectorPass ⟨"", "", "", ""⟩ (A2PDoc.mk "" "" "" "" false (some "e") none none)
          ⟨"CMa", "MGa", "BNa", "approved"⟩ 5).switched = true →
          (selectorPass ⟨"", "", "", ""⟩ (A2PDoc.mk "" "" "" "" false (some "e") none none)
            ⟨"CMa", "MGa", "BNa", "approved"⟩ 5).vars.campaignSid = "CMa"
          ∧ (selectorPass ⟨"", "", "", ""⟩ (A2PDoc.mk "" "" "" "" false (some "e") none none)
            ⟨"CMa", "MGa", "BNa", "approved"⟩ 5).vars.messagingServiceSid = "MGa"
          ∧ (selectorPass ⟨"", "", "", ""⟩ (A2PDoc.mk "" "" "" "" false (some "e") none none)
            ⟨"CMa", "MGa", "BNa", "approved"⟩ 5).doc.campaignSid = "CMa"
          ∧ (selectorPass ⟨"", "", "", ""⟩ (A2PDoc.mk "" "" "" "" false (some "e") none none)
            ⟨"CMa", "MGa", "BNa", "approved"⟩ 5).doc.messagingServiceSid = "MGa")
      ∧ ((selectorPass ⟨"", "", "", ""⟩ (A2PDoc.mk "" "" "" "" false (some "e") none none)
          ⟨"CMa", "MGa", "BNa", "approved"⟩ 5).switched = false →
          (selectorPass ⟨"", "", "", ""⟩ (A2PDoc.mk "" "" "" "" false (some "e") none none)
            ⟨"CMa", "MGa", "BNa", "approved"⟩ 5).vars = ⟨"", "", "", ""⟩
          ∧ (selectorPass ⟨"", "", "", ""⟩ (A2PDoc.mk "" "" "" "" false (some "e") none none)
            ⟨"CMa", "MGa", "BNa", "approved"⟩ 5).doc
              = A2PDoc.mk "" "" "" "" false (some "e") none none)) :=
  ⟨by decide, by decide,
    selector_switch_iff_rules ⟨"", "", "", ""⟩ (A2PDoc.mk "" "" "" "" false (some "e") none none)
      ⟨"CMa", "MGa", "BNa", "approved"⟩ 5 (by decide) (by decide)⟩

/-- C6: when the stored campaign (both identifiers present) is already in
the approved class, the selector never switches to a scanned candidate
scoring lower than or equal to the current status: the pass keeps the
stored identifiers and leaves the persisted document untouched. -/
theorem approved_never_downgraded
    (v : SyncVars) (doc : A2PDoc) (c : Candidate) (now : Nat)
    (hap : isApproved v.campStatus = true)
    (h1 : v.campaignSid ≠ "") (h2 : v.messagingServiceSid ≠ "")
    (hle : scoreCampaignStatus c.campaignStatus ≤ scoreCampaignStatus v.campStatus) :
    (selectorPass v doc c now).switched = false
    ∧ (selectorPass v doc c now).vars = v
    ∧ (selectorPass v doc c now).doc = doc := by
  have hlow : lowerStr v.campStatus = "approved" := lowerStr_eq_of_isApproved _ hap
  have hsw : shouldSwitch v.campaignSid v.messagingServiceSid "" v.campStatus (some c)
      = false := by
    simp [shouldSwitch, optField, orElse_empty_left, orElse_empty_right,
      h1, h2, hlow, CAMPAIGN_APPROVED, Nat.not_lt.mpr hle]
  rw [selectorPass_eq]
  simp [hsw]

/-- Witness for C6: a profile approved on campaign CMa is kept when the
scan returns a pending candidate CMb. -/
theorem approved_never_downgraded_witness :
    isApproved "approved" = true ∧ ("CMa" : String) ≠ "" ∧ ("MGa" : String) ≠ ""
    ∧ scoreCampaignStatus "pending" ≤ scoreCampaignStatus "approved"
    ∧ ((selectorPass ⟨"CMa", "MGa", "BNa", "approved"⟩
          (A2PDoc.mk "CMa" "MGa" "BNa" "CMa" true none none none)
          ⟨"CMb", "MGb", "BNb", "pending"⟩ 5).switched = false
      ∧ (selectorPass ⟨"CMa", "MGa", "BNa", "approved"⟩
          (A2PDoc.mk "CMa" "MGa" "BNa" "CMa" true none none none)
          ⟨"CMb", "MGb", "BNb", "pending"⟩ 5).vars = ⟨"CMa", "MGa", "BNa", "approved"⟩
      ∧ (selectorPass ⟨"CMa", "MGa", "BNa", "approved"⟩
          (A2PDoc.mk "CMa" "MGa" "BNa" "CMa" true none none none)
          ⟨"CMb", "MGb", "BNb", "pending"⟩ 5).doc
            = A2PDoc.mk "CMa" "MGa" "BNa" "CMa" true none none none) :=
  ⟨by decide, by decide, by decide, by decide,
    approved_never_downgraded ⟨"CMa", "MGa", "BNa", "approved"⟩
      (A2PDoc.mk "CMa" "MGa" "BNa" "CMa" true none none none)
      ⟨"CMb", "MGb", "BNb", "pending"⟩ 5 (by decide) (by decide) (by decide) (by decide)⟩

/-- C7: any error thrown while fetching the current record or scanning the
registry is caught inside the canonical-switch block: the pass reports no
switch, the persisted document is untouched, and the local identifiers are
exactly as before (only the in-memory campStatus may have been refreshed
by a fetch that succeeded before a failing scan).  The block is a total
function, so the error never propagates to the caller. -/
theorem registry_error_means_no_switch
    (v : SyncVars) (doc : A2PDoc) (fr : Except Unit (Option String))
    (sr : Except Unit (Option Candidate)) (now : Nat)
    (herr : fr = Except.error () ∨ sr = Except.error ()) :
    (canonicalSwitch v doc fr sr now).switched = false
    ∧ (canonicalSwitch v doc fr sr now).doc = doc
    ∧ (canonicalSwitch v doc fr sr now).vars.campaignSid = v.campaignSid
    ∧ (canonicalSwitch v doc fr sr now).vars.messagingServiceSid = v.messagingServiceSid
    ∧ (canonicalSwitch v doc fr sr now).vars.brandSid = v.brandSid := by
  rcases herr with herr | herr
  · subst herr
    simp [canonicalSwitch]
  · subst herr
    cases fr with
    | error e => simp [canonicalSwitch]
    | ok fetched =>
      cases fetched with
      | none => simp [canonicalSwitch]
      | some st => simp [canonicalSwitch]

/-- Witness for C7: a failing scan after a successful fetch leaves the
stored identifiers and the document unchanged. -/
theorem registry_error_means_no_switch_witness :
    ((Except.ok (some "pending") : Except Unit (Option String)) = Except.error ()
      ∨ (Except.error () : Except Unit (Option Candidate)) = Except.error ())
    ∧ ((canonicalSwitch ⟨"CMa", "MGa", "BNa", "approved"⟩
          (A2PDoc.mk "CMa" "MGa" "BNa" "CMa" true none none none)
          (Except.ok (some "pending")) (Except.error ()) 5).switched = false
      ∧ (canonicalSwitch ⟨"CMa", "MGa", "BNa", "approved"⟩
          (A2PDoc.mk "CMa" "MGa" "BNa" "CMa" true none none none)
          (Except.ok (some "pending")) (Except.error ()) 5).doc
            = A2PDoc.mk "CMa" "MGa" "BNa" "CMa" true none none none
      ∧ (canonicalSwitch ⟨"CMa", "MGa", "BNa", "approved"⟩
          (A2PDoc.mk "CMa" "MGa" "BNa" "CMa" true none none none)
          (Except.ok (some "pending")) (Except.error ()) 5).vars.campaignSid = "CMa"
      ∧ (canonicalSwitch ⟨"CMa", "MGa", "BNa", "approved"⟩
          (A2PDoc.mk "CMa" "MGa" "BNa" "CMa" true none none none)
          (Except.ok (some "pending")) (Except.error ()) 5).vars.messagingServiceSid = "MGa"
      ∧ (canonicalSwitch ⟨"CMa", "MGa", "BNa", "approved"⟩
          (A2PDoc.mk "CMa" "MGa" "BNa" "CMa" true none none none)
          (Except.ok (some "pending")) (Except.error ()) 5).vars.brandSid = "BNa") :=
  ⟨Or.inr rfl,
    registry_error_means_no_switch ⟨"CMa", "MGa", "BNa", "approved"⟩
      (A2PDoc.mk "CMa" "MGa" "BNa" "CMa" true none none none)
      (Except.ok (some "pending")) (Except.error ()) 5 (Or.inr rfl)⟩

/-- C10: when the selector switches to a scanned candidate, the stored
brandId is overwritten with the candidate's brandId exactly when that
brandId starts with "BN"; otherwise (absent, embedded as the empty string,
or differently prefixed) the previously stored brandId is kept in both the
local variables and the persisted document, even though campaignSid and
messagingServiceSid are switched to the candidate's. -/
theorem brand_adoption_guard
    (v : SyncVars) (doc : A2PDoc) (c : Candidate) (now : Nat)
    (hsw : (selectorPass v doc c now).switched = true)
    (hbd : v.brandSid = doc.brandSid) :
    (strStartsWith c.brandSid "BN" = true →
      (selectorPass v doc c now).vars.brandSid = c.brandSid
      ∧ (selectorPass v doc c now).doc.brandSid = c.brandSid)
    ∧ (strStartsWith c.brandSid "BN" = false →
      (selectorPass v doc c now).vars.brandSid = v.brandSid
      ∧ (selectorPass v doc c now).doc.brandSid = doc.brandSid)
    ∧ (selectorPass v doc c now).doc.campaignSid = c.campaignSid
    ∧ (selectorPass v doc c now).doc.messagingServiceSid = c.messagingServiceSid := by
  rw [selectorPass_eq] at hsw ⊢
  by_cases hcond : (shouldSwitch v.campaignSid v.messagingServiceSid "" v.campStatus (some c)
      && c.messagingServiceSid ≠ "" && c.campaignSid ≠ "") = true
  · rw [if_pos hcond]
    by_cases hbn : strStartsWith c.brandSid "BN" = true
    · have hne := strStartsWith_ne_empty c.brandSid hbn
      simp [hbn, hne]
    · have hbn' : strStartsWith c.brandSid "BN" = false := by simpa using hbn
      by_cases hbe : v.brandSid = ""
      · simp [hbn', hbe, hbd.symm.trans hbe]
      · simp [hbn', hbe, hbd]
  · rw [if_neg hcond] at hsw
    simp at hsw

/-- Witness for C10: a switched-to candidate with brandSid "xx" does not
displace the stored "BNa", while campaign and service identifiers switch. -/
theorem brand_adoption_guard_witness :
    (selectorPass ⟨"CMa", "MGa", "BNa", "pending"⟩
        (A2PDoc.mk "CMa" "MGa" "BNa" "CMa" false none none none)
        ⟨"CMb", "MGb", "xx", "pending"⟩ 5).switched = true
    ∧ ("BNa" : String) = "BNa"
    ∧ ((strStartsWith "xx" "BN" = true →
        (selectorPass ⟨"CMa", "MGa", "BNa", "pending"⟩
          (A2PDoc.mk "CMa" "MGa" "BNa" "CMa" false none none none)
          ⟨"CMb", "MGb", "xx", "pending"⟩ 5).vars.brandSid = "xx"
        ∧ (selectorPass ⟨"CMa", "MGa", "BNa", "pending"⟩
          (A2PDoc.mk "CMa" "MGa" "BNa" "CMa" false none none none)
          ⟨"CMb", "MGb", "xx", "pending"⟩ 5).doc.brandSid = "xx")
      ∧ (strStartsWith "xx" "BN" = false →
        (selectorPass ⟨"CMa", "MGa", "BNa", "pending"⟩
          (A2PDoc.mk "CMa" "MGa" "BNa" "CMa" false none none none)
          ⟨"CMb", "MGb", "xx", "pending"⟩ 5).vars.brandSid = "BNa"
        ∧ (selectorPass ⟨"CMa", "MGa", "BNa", "pending"⟩
          (A2PDoc.mk "CMa" "MGa" "BNa" "CMa" false none none none)
          ⟨"CMb", "MGb", "xx", "pending"⟩ 5).doc.brandSid = "BNa")
      ∧ (selectorPass ⟨"CMa", "MGa", "BNa", "pending"⟩
          (A2PDoc.mk "CMa" "MGa" "BNa" "CMa" false none none none)
          ⟨"CMb", "MGb", "xx", "pending"⟩ 5).doc.campaignSid = "CMb"
      ∧ (selectorPass ⟨"CMa", "MGa", "BNa", "pending"⟩
          (A2PDoc.mk "CMa" "MGa" "BNa" "CMa" false none none none)
          ⟨"CMb", "MGb", "xx", "pending"⟩ 5).doc.messagingServiceSid = "MGb") :=
  ⟨by decide, rfl,
    brand_adoption_guard ⟨"CMa", "MGa", "BNa", "pending"⟩
      (A2PDoc.mk "CMa" "MGa" "BNa" "CMa" false none none none)
      ⟨"CMb", "MGb", "xx", "pending"⟩ 5 (by decide) rfl⟩

/-! The gate race: invariant and counterexample. -/

/-- Per-thread bound: billing is called at most once, and not before the
gate block runs. -/
def chargeBound (t : ThreadState) : Prop :=
  t.charges ≤ 1 ∧ ((t.pc = PC.read ∨ t.pc = PC.charge) → t.charges = 0)

/-- Race invariant: no successful gate write while the gate is unset, the
two invocations never both succeed in writing the gate, and each respects
the per-thread billing bound. -/
def raceInv (s : RaceState) : Prop :=
  (s.gate = false → s.ta.wrote = false ∧ s.tb.wrote = false)
  ∧ ¬(s.ta.wrote = true ∧ s.tb.wrote = true)
  ∧ chargeBound s.ta ∧ chargeBound s.tb

theorem threadStep_facts (ready gate : Bool) (t : ThreadState) :
    (gate = true → (threadStep ready gate t).1 = true)
    ∧ ((threadStep ready gate t).2.wrote = true →
        t.wrote = true ∨ (gate = false ∧ (threadStep ready gate t).1 = true))
    ∧ (t.wrote = true → (threadStep ready gate t).2.wrote = true)
    ∧ (chargeBound t → chargeBound (threadStep ready gate t).2) := by
  cases hpc : t.pc <;>
    unfold threadStep <;>
    rw [hpc] <;>
    split_ifs <;>
    simp_all [chargeBound]

theorem raceStep_preserves_inv (ready : Bool) (s : RaceState) (tid : Tid)
    (h : raceInv s) : raceInv (raceStep ready s tid) := by
  obtain ⟨hgate, hboth, hca, hcb⟩ := h
  cases tid with
  | A =>
    obtain ⟨hmono, hwrote, hkeep, hcharge⟩ := threadStep_facts ready s.gate s.ta
    refine ⟨?_, ?_, hcharge hca, hcb⟩
    · intro hg
      unfold raceStep at hg ⊢
      dsimp only at hg ⊢
      have hgf : s.gate = false := by
        cases hgb : s.gate with
        | false => rfl
        | true => rw [hmono hgb] at hg; exact absurd hg (by simp)
      refine ⟨?_, (hgate hgf).2⟩
      cases hw : (threadStep ready s.gate s.ta).2.wrote with
      | false => rfl
      | true =>
        rcases hwrote hw with hold | ⟨_, hone⟩
        · rw [(hgate hgf).1] at hold; exact absurd hold (by simp)
        · rw [hone] at hg; exact absurd hg (by simp)
    · rintro ⟨hwa, hwb⟩
      unfold raceStep at hwa hwb
      dsimp only at hwa hwb
      rcases hwrote hwa with hold | ⟨hgf, _⟩
      · exact hboth ⟨hold, hwb⟩
      · rw [(hgate hgf).2] at hwb; exact absurd hwb (by simp)
  | B =>
    obtain ⟨hmono, hwrote, hkeep, hcharge⟩ := threadStep_facts ready s.gate s.tb
    refine ⟨?_, ?_, hca, hcharge hcb⟩
    · intro hg
      unfold raceStep at hg ⊢
      dsimp only at hg ⊢
      have hgf : s.gate = false := by
        cases hgb : s.gate with
        | false => rfl
        | true => rw [hmono hgb] at hg; exact absurd hg (by simp)
      refine ⟨(hgate hgf).1, ?_⟩
      cases hw : (threadStep ready s.gate s.tb).2.wrote with
      | false => rfl
      | true =>
        rcases hwrote hw with hold | ⟨_, hone⟩
        · rw [(hgate hgf).2] at hold; exact absurd hold (by simp)
        · rw [hone] at hg; exact absurd hg (by simp)
    · rintro ⟨hwa, hwb⟩
      unfold raceStep at hwa hwb
      dsimp only at hwa hwb
      rcases hwrote hwb with hold | ⟨hgf, _⟩
      · exact hboth ⟨hwa, hold⟩
      · rw [(hgate hgf).1] at hwa; exact absurd hwa (by simp)

theorem runRace_preserves_inv (ready : Bool) (s : RaceState) (sched : List Tid)
    (h : raceInv s) : raceInv (runRace ready s sched) := by
  induction sched generalizing s with
  | nil => exact h
  | cons t ts ih => exact ih _ (raceStep_preserves_inv ready s t h)

/-- C3 counterexample: with both invocations ready and the gate initially
unset, the schedule in which both invocations read the document before
either finishes has BOTH of them observe approvalNotifiedAt unset and BOTH
call billing (one billing call each), refuting that exactly one invocation
calls billing; the conditional gate write still succeeds for only the
first. -/
theorem gate_race_both_bill_counterexample :
    (runRace true initRace [Tid.A, Tid.B, Tid.A, Tid.A, Tid.B, Tid.B]).ta.snap = false
    ∧ (runRace true initRace [Tid.A, Tid.B, Tid.A, Tid.A, Tid.B, Tid.B]).tb.snap = false
    ∧ (runRace true initRace [Tid.A, Tid.B, Tid.A, Tid.A, Tid.B, Tid.B]).ta.charges = 1
    ∧ (runRace true initRace [Tid.A, Tid.B, Tid.A, Tid.A, Tid.B, Tid.B]).tb.charges = 1
    ∧ (runRace true initRace [Tid.A, Tid.B, Tid.A, Tid.A, Tid.B, Tid.B]).ta.wrote = true
    ∧ (runRace true initRace [Tid.A, Tid.B, Tid.A, Tid.A, Tid.B, Tid.B]).tb.wrote = false := by
  decide

/-- C3 amended: under any interleaving of the two invocations from an
unset gate, each invocation calls billing at most once and at most one
invocation's conditional gate write succeeds; but both invocations may
call the (gateway-idempotent) billing wrapper, as the interleaving in
which both read the gate before either writes it shows: there both charge
once and exactly one gate write succeeds. -/
theorem gate_race_at_most_one_write
    (ready : Bool) (sched : List Tid) :
    (runRace ready initRace sched).ta.charges ≤ 1
    ∧ (runRace ready initRace sched).tb.charges ≤ 1
    ∧ ¬((runRace ready initRace sched).ta.wrote = true
        ∧ (runRace ready initRace sched).tb.wrote = true)
    ∧ ((runRace true initRace [Tid.A, Tid.B, Tid.A, Tid.A, Tid.B, Tid.B]).ta.charges = 1
      ∧ (runRace true initRace [Tid.A, Tid.B, Tid.A, Tid.A, Tid.B, Tid.B]).tb.charges = 1
      ∧ (runRace true initRace [Tid.A, Tid.B, Tid.A, Tid.A, Tid.B, Tid.B]).ta.wrote = true
      ∧ (runRace true initRace [Tid.A, Tid.B, Tid.A, Tid.A, Tid.B, Tid.B]).tb.wrote = false) := by
  have hinv : raceInv (runRace ready initRace sched) := by
    refine runRace_preserves_inv ready initRace sched ?_
    exact ⟨fun _ => ⟨rfl, rfl⟩, by simp [initRace, initThread], ⟨by simp [initRace, initThread],
      fun _ => rfl⟩, ⟨by simp [initRace, initThread], fun _ => rfl⟩⟩
  exact ⟨hinv.2.2.1.1, hinv.2.2.2.1, hinv.2.1, by decide⟩

/-- C9 counterexample: with configured secret "s3", a request presenting a
non-empty wrong query token together with an x-cron-token header that
equals the secret is REJECTED by the cron endpoint's authorization, because
the token chain takes the first non-empty channel; this refutes the claim
that a match on any one channel authorizes. -/
theorem cron_auth_any_match_counterexample :
    (CronRequest.mk "wrong" "s3" "" "").xCronToken = "s3"
    ∧ checkA2PAuthorized (CronRequest.mk "wrong" "s3" "" "") "s3" = false := by
  constructor
  · rfl
  · decide

/-- C9 amended: the cron endpoint's authorization compares the secret with
the FIRST non-empty value among query token, x-cron-token header,
x-cron-key header and bearer, in that order — so a match on a channel
authorizes only when every earlier channel is empty, and the request is
always rejected when no channel equals the (configured, non-empty) secret;
the sync-status endpoint, by contrast, genuinely authorizes on any single
match among its three channels (query token, x-cron-key, bearer). -/
theorem polling_auth_first_nonempty_semantics
    (req : CronRequest) (s q hk auth k : String) (hs : s ≠ "") (hk0 : k ≠ "") :
    (checkA2PAuthorized req s = true ↔ checkA2PToken req = s)
    ∧ ((req.queryToken ≠ s ∧ req.xCronToken ≠ s ∧ req.xCronKey ≠ s
        ∧ bearerOf req.authorization ≠ s) → checkA2PAuthorized req s = false)
    ∧ (req.queryToken = s → checkA2PAuthorized req s = true)
    ∧ (req.queryToken = "" → req.xCronToken = s → checkA2PAuthorized req s = true)
    ∧ (req.queryToken = "" → req.xCronToken = "" → req.xCronKey = s →
        checkA2PAuthorized req s = true)
    ∧ (req.queryToken = "" → req.xCronToken = "" → req.xCronKey = "" →
        bearerOf req.authorization = s → checkA2PAuthorized req s = true)
    ∧ (syncStatusAuthorized q hk auth k = true ↔
        (q = k ∨ hk = k ∨ bearerOf auth = k)) := by
  refine ⟨by simp [checkA2PAuthorized], ?_, ?_, ?_, ?_, ?_, ?_⟩
  · rintro ⟨hq, ht, hx, hb⟩
    unfold checkA2PAuthorized checkA2PToken orElse
    split_ifs <;> simp_all
  · intro h
    unfold checkA2PAuthorized checkA2PToken orElse
    split_ifs <;> simp_all
  · intro h1 h2
    unfold checkA2PAuthorized checkA2PToken orElse
    split_ifs <;> simp_all
  · intro h1 h2 h3
    unfold checkA2PAuthorized checkA2PToken orElse
    split_ifs <;> simp_all
  · intro h1 h2 h3 h4
    unfold checkA2PAuthorized checkA2PToken orElse
    split_ifs <;> simp_all
  · unfold syncStatusAuthorized
    simp only [hk0, ne_eq, not_false_eq_true, Bool.not_eq_true', Bool.and_eq_false_imp]
    constructor
    · intro h
      by_cases hq : q = k
      · exact Or.inl hq
      · by_cases hh : hk = k
        · exact Or.inr (Or.inl hh)
        · refine Or.inr (Or.inr ?_)
          by_contra hb
          simp [hk0, hq, hh, hb] at h
    · intro h
      rcases h with h | h | h <;> simp [h]

/-- Witness for C9 amended, at concrete requests: a bearer-only request is
authorized, an all-wrong request is rejected, and the sync-status check
accepts an x-cron-key match even alongside a wrong query token. -/
theorem polling_auth_first_nonempty_semantics_witness :
    ("s3" : String) ≠ "" ∧ ("k7" : String) ≠ ""
    ∧ ((checkA2PAuthorized (CronRequest.mk "" "" "" "Bearer s3") "s3" = true ↔
        checkA2PToken (CronRequest.mk "" "" "" "Bearer s3") = "s3")
      ∧ (((CronRequest.mk "" "" "" "Bearer s3").queryToken ≠ "s3"
          ∧ (CronRequest.mk "" "" "" "Bearer s3").xCronToken ≠ "s3"
          ∧ (CronRequest.mk "" "" "" "Bearer s3").xCronKey ≠ "s3"
          ∧ bearerOf (CronRequest.mk "" "" "" "Bearer s3").authorization ≠ "s3") →
          checkA2PAuthorized (CronRequest.mk "" "" "" "Bearer s3") "s3" = false)
      ∧ ((CronRequest.mk "" "" "" "Bearer s3").queryToken = "s3" →
          checkA2PAuthorized (CronRequest.mk "" "" "" "Bearer s3") "s3" = true)
      ∧ ((CronRequest.mk "" "" "" "Bearer s3").queryToken = "" →
          (CronRequest.mk "" "" "" "Bearer s3").xCronToken = "s3" →
          checkA2PAuthorized (CronRequest.mk "" "" "" "Bearer s3") "s3" = true)
      ∧ ((CronRequest.mk "" "" "" "Bearer s3").queryToken = "" →
          (CronRequest.mk "" "" "" "Bearer s3").xCronToken = "" →
          (CronRequest.mk "" "" "" "Bearer s3").xCronKey = "s3" →
          checkA2PAuthorized (CronRequest.mk "" "" "" "Bearer s3") "s3" = true)
      ∧ ((CronRequest.mk "" "" "" "Bearer s3").queryToken = "" →
          (CronRequest.mk "" "" "" "Bearer s3").xCronToken = "" →
          (CronRequest.mk "" "" "" "Bearer s3").xCronKey = "" →
          bearerOf (CronRequest.mk "" "" "" "Bearer s3").authorization = "s3" →
          checkA2PAuthorized (CronRequest.mk "" "" "" "Bearer s3") "s3" = true)
      ∧ (syncStatusAuthorized "bad" "k7" "" "k7" = true ↔
          (("bad" : String) = "k7" ∨ ("k7" : String) = "k7"
            ∨ bearerOf "" = "k7"))) :=
  ⟨by decide, by decide,
    polling_auth_first_nonempty_semantics (CronRequest.mk "" "" "" "Bearer s3")
      "s3" "bad" "k7" "" "k7" (by decide) (by decide)⟩

end CoveCRM
